import Mathlib

set_option linter.unusedVariables false

/-
  Verification of the CognitoUser authentication engine
  (src/src/CognitoUser.js) against its natural-language specification.

  The JavaScript source is shallowly embedded: `window.localStorage` becomes
  an association list with JS truthiness made explicit, the `CognitoUser`
  object becomes a record threaded through each operation, provider calls
  become `Except`-valued environment fields consumed in the order the
  callbacks fire, and the callback invocations become an explicit outcome
  value.  Cryptographic material (the SRP-derived HKDF key, the HMAC
  signature) is represented symbolically by the inputs that determine it,
  since AuthenticationHelper computes opaque byte strings from exactly
  those inputs.
-/

namespace Cognito

/-! ## The key-value store (window.localStorage) -/

/-- `window.localStorage`, modelled as an association list from keys to
string values.  Earlier entries shadow later ones; `setItem` removes the
old binding first, so each key occurs at most once in stores built from
the operations below. -/
abbrev Storage := List (String × String)

/-- `storage.getItem(key)`: the stored value, or `none` for JS `null`. -/
def Storage.getItem : Storage → String → Option String
  | [], _ => Option.none
  | (k, v) :: rest, key => if k = key then some v else Storage.getItem rest key

/-- `storage.removeItem(key)`. -/
def Storage.removeItem : Storage → String → Storage
  | [], _ => []
  | (k, v) :: rest, key =>
      if k = key then Storage.removeItem rest key
      else (k, v) :: Storage.removeItem rest key

/-- `storage.setItem(key, value)`. -/
def Storage.setItem (s : Storage) (key v : String) : Storage :=
  (key, v) :: Storage.removeItem s key

/-- JS truthiness of a `getItem` result: `null` and the empty string are
falsy, every other string is truthy. -/
def jsTruthy : Option String → Bool
  | Option.none => false
  | some v => v ≠ ""

theorem getItem_removeItem (s : Storage) (k k' : String) :
    (s.removeItem k).getItem k' = if k' = k then Option.none else s.getItem k' := by
  induction s with
  | nil => simp [Storage.removeItem, Storage.getItem]
  | cons hd tl ih =>
      obtain ⟨a, b⟩ := hd
      by_cases hak : a = k <;> by_cases hak' : a = k' <;>
        simp_all [Storage.removeItem, Storage.getItem]

theorem getItem_setItem (s : Storage) (k v k' : String) :
    (s.setItem k v).getItem k' = if k' = k then some v else s.getItem k' := by
  by_cases h : k' = k <;>
    simp [Storage.setItem, Storage.getItem, getItem_removeItem, h, Ne.symm]

/-! ## Cache keys (§4.5 of the spec; source lines 631-633, 706-718, 725-727) -/

/-- Key for the cached ID token:
`CognitoIdentityServiceProvider.{clientId}.{username}.idToken`. -/
def idTokenKey (clientId username : String) : String :=
  "CognitoIdentityServiceProvider." ++ clientId ++ "." ++ username ++ ".idToken"

/-- Key for the cached access token. -/
def accessTokenKey (clientId username : String) : String :=
  "CognitoIdentityServiceProvider." ++ clientId ++ "." ++ username ++ ".accessToken"

/-- Key for the cached refresh token. -/
def refreshTokenKey (clientId username : String) : String :=
  "CognitoIdentityServiceProvider." ++ clientId ++ "." ++ username ++ ".refreshToken"

/-- Key for the last authenticated username:
`CognitoIdentityServiceProvider.{clientId}.LastAuthUser`. -/
def lastUserKey (clientId : String) : String :=
  "CognitoIdentityServiceProvider." ++ clientId ++ ".LastAuthUser"

/-- Key for the cached device key. -/
def deviceKeyKey (clientId username : String) : String :=
  "CognitoIdentityServiceProvider." ++ clientId ++ "." ++ username ++ ".deviceKey"

/-- Key for the cached device random password. -/
def randomPasswordKey (clientId username : String) : String :=
  "CognitoIdentityServiceProvider." ++ clientId ++ "." ++ username ++ ".randomPasswordKey"

/-- Key for the cached device group key. -/
def deviceGroupKeyKey (clientId username : String) : String :=
  "CognitoIdentityServiceProvider." ++ clientId ++ "." ++ username ++ ".deviceGroupKey"

theorem strData_append (s t : String) : (s ++ t).data = s.data ++ t.data := by
  cases s; cases t; rfl

/-- Two per-user cache keys with the same client id and username but
different field suffixes are distinct keys. -/
theorem userField_ne (c un : String) (f g : String) (h : f.data ≠ g.data) :
    ("CognitoIdentityServiceProvider." ++ c ++ "." ++ un ++ f) ≠
      ("CognitoIdentityServiceProvider." ++ c ++ "." ++ un ++ g) := by
  intro he
  apply h
  have hd := congrArg String.data he
  simp only [strData_append, List.append_assoc] at hd
  exact List.append_cancel_left (List.append_cancel_left
    (List.append_cancel_left (List.append_cancel_left hd)))

/-- The per-user ID-token key never collides with the LastAuthUser key. -/
theorem idTokenKey_ne_lastUserKey (c un : String) :
    idTokenKey c un ≠ lastUserKey c := by
  intro he
  have hd := congrArg String.data he
  simp only [idTokenKey, lastUserKey, strData_append, List.append_assoc] at hd
  have h1 : un.data ++ ".idToken".data = "LastAuthUser".data := by
    have h2 := List.append_cancel_left (List.append_cancel_left hd)
    have h3 : ("." : String).data ++ (un.data ++ ".idToken".data) =
        ("." : String).data ++ "LastAuthUser".data := by
      simpa [List.append_assoc] using h2
    exact List.append_cancel_left h3
  have hsplit : "LastAuthUser".data = "Last".data ++ "AuthUser".data := by decide
  rw [hsplit] at h1
  have := (List.append_inj' h1 (by decide)).2
  exact absurd this (by decide)

/-- The per-user access-token key never collides with the LastAuthUser key. -/
theorem accessTokenKey_ne_lastUserKey (c un : String) :
    accessTokenKey c un ≠ lastUserKey c := by
  intro he
  have hd := congrArg String.data he
  simp only [accessTokenKey, lastUserKey, strData_append, List.append_assoc] at hd
  have h1 : un.data ++ ".accessToken".data = "LastAuthUser".data := by
    have h2 := List.append_cancel_left (List.append_cancel_left hd)
    have h3 : ("." : String).data ++ (un.data ++ ".accessToken".data) =
        ("." : String).data ++ "LastAuthUser".data := by
      simpa [List.append_assoc] using h2
    exact List.append_cancel_left h3
  have hsplit : "LastAuthUser".data = ([] : List Char) ++ "LastAuthUser".data := by decide
  rw [hsplit] at h1
  have := (List.append_inj' h1 (by decide)).2
  exact absurd this (by decide)

/-- The per-user refresh-token key never collides with the LastAuthUser key. -/
theorem refreshTokenKey_ne_lastUserKey (c un : String) :
    refreshTokenKey c un ≠ lastUserKey c := by
  intro he
  have hd := congrArg String.data he
  simp only [refreshTokenKey, lastUserKey, strData_append, List.append_assoc] at hd
  have h1 : un.data ++ ".refreshToken".data = "LastAuthUser".data := by
    have h2 := List.append_cancel_left (List.append_cancel_left hd)
    have h3 : ("." : String).data ++ (un.data ++ ".refreshToken".data) =
        ("." : String).data ++ "LastAuthUser".data := by
      simpa [List.append_assoc] using h2
    exact List.append_cancel_left h3
  have hlen := congrArg List.length h1
  simp [List.length_append] at hlen

/-! ## Tokens and sessions -/

/-- `NewDeviceMetadata` of a provider `AuthenticationResult`. -/
structure NewDeviceMetadata where
  DeviceGroupKey : String
  DeviceKey : String
deriving DecidableEq

/-- A provider `AuthenticationResult`.  `RefreshToken` is `none` when the
provider elides the field (`hasOwnProperty` is false), `NewDeviceMetadata`
is `none` when the result carries no new-device metadata. -/
structure AuthenticationResult where
  IdToken : String
  AccessToken : String
  RefreshToken : Option String
  NewDeviceMetadata : Option NewDeviceMetadata
deriving DecidableEq

/-- A `CognitoUserSession`: the three bearer tokens, each kept in its raw
string encoding (the token objects in the source only wrap the string). -/
structure CognitoUserSession where
  idToken : String
  accessToken : String
  refreshToken : Option String
deriving DecidableEq

/-- Modelled from the spec: `CognitoUserSession.isValid` (§4.4 of the spec;
CognitoUserSession.js is not under src/).  A session is valid iff both the
ID and access token expiry claims are in the future.  `dec` extracts the
embedded numeric expiry claim from a raw token string. -/
def CognitoUserSession.isValid (s : CognitoUserSession) (dec : String → Nat)
    (now : Nat) : Bool :=
  decide (now < dec s.accessToken) && decide (now < dec s.idToken)

/-- `CognitoUser.getCognitoUserSession(authResult)` (source lines 794-806):
wraps an `AuthenticationResult` into a `CognitoUserSession`. -/
def getCognitoUserSession (authResult : AuthenticationResult) : CognitoUserSession :=
  { idToken := authResult.IdToken
    accessToken := authResult.AccessToken
    refreshToken := authResult.RefreshToken }

/-! ## Symbolic SRP material -/

/-- `pool.getUserPoolId().split('_')[1]`: the part of the user pool id after
the first underscore (JS yields `undefined` when absent). -/
def splitUnderscoreIdx1 (s : String) : String :=
  (((s.splitOn "_").drop 1).headD "undefined")

/-- Modelled from the spec: the HKDF key returned by
`AuthenticationHelper.getPasswordAuthenticationKey` (§4.1 of the spec;
AuthenticationHelper.js is not under src/).  The derived key is an opaque
byte string determined exactly by the helper's pool identifier and the
username, password, server B value and salt passed in, so it is
represented symbolically by those inputs. -/
structure HkdfKey where
  poolIdentifier : String
  username : String
  password : String
  serverB : String
  salt : String
deriving DecidableEq

/-- Symbolic constructor mirroring the call
`authenticationHelper.getPasswordAuthenticationKey(username, password, serverB, salt)`
on a helper constructed with `poolIdentifier`. -/
def getPasswordAuthenticationKey (poolIdentifier username password serverB salt : String) :
    HkdfKey :=
  { poolIdentifier := poolIdentifier, username := username, password := password
    serverB := serverB, salt := salt }

/-- The HMAC-SHA256 challenge signature, represented symbolically by its
key and the exact sequence of message parts fed to `mac.update`. -/
structure HmacSignature where
  key : HkdfKey
  parts : List String
deriving DecidableEq

/-! ## The CognitoUser object state -/

/-- The mutable fields of a `CognitoUser` object.  `Session` is the
provider session token stored between challenge rounds.  `deviceGroupkey`
(lower-case k) is the distinct property created by the assignment
`self.deviceGroupkey = null` in `forgetDevice`; JS objects treat it as a
separate field from `deviceGroupKey`. -/
structure CognitoUserState where
  username : String
  poolUserPoolId : String
  poolClientId : String
  authenticationFlowType : String
  Session : Option String
  signInUserSession : Option CognitoUserSession
  deviceKey : Option String
  deviceGroupKey : Option String
  deviceGroupkey : Option String
  randomPassword : Option String
  verifierDevices : Option String
deriving DecidableEq

/-- `this.signInUserSession != null && this.signInUserSession.isValid()`:
the guard on every protected operation. -/
def hasValidSession (dec : String → Nat) (now : Nat) (u : CognitoUserState) : Bool :=
  match u.signInUserSession with
  | Option.none => false
  | some s => s.isValid dec now

/-! ## Cache operations (source lines 706-786) -/

/-- `CognitoUser.cacheTokens()` (source lines 706-718): stores the three
tokens of the current session and the last authenticated username.
`localStorage.setItem` coerces a `null` refresh token to the string
`"null"`.  The source reads `this.signInUserSession` unconditionally; it
is only called after the session is set, so the `none` case is inert. -/
def cacheTokens (u : CognitoUserState) (storage : Storage) : Storage :=
  match u.signInUserSession with
  | Option.none => storage
  | some s =>
      ((((storage.setItem (idTokenKey u.poolClientId u.username) s.idToken).setItem
          (accessTokenKey u.poolClientId u.username) s.accessToken).setItem
          (refreshTokenKey u.poolClientId u.username) (s.refreshToken.getD "null")).setItem
          (lastUserKey u.poolClientId) u.username)

/-- `CognitoUser.cacheDeviceKeyAndPassword()` (source lines 724-734). -/
def cacheDeviceKeyAndPassword (u : CognitoUserState) (storage : Storage) : Storage :=
  (((storage.setItem (deviceKeyKey u.poolClientId u.username) (u.deviceKey.getD "null")).setItem
      (randomPasswordKey u.poolClientId u.username) (u.randomPassword.getD "null")).setItem
      (deviceGroupKeyKey u.poolClientId u.username) (u.deviceGroupKey.getD "null"))

/-- `CognitoUser.getCachedDeviceKeyAndPassword()` (source lines 740-752):
when a device key is cached (JS truthiness), load all three device fields. -/
def getCachedDeviceKeyAndPassword (u : CognitoUserState) (storage : Storage) :
    CognitoUserState :=
  if jsTruthy (storage.getItem (deviceKeyKey u.poolClientId u.username)) then
    { u with
      deviceKey := storage.getItem (deviceKeyKey u.poolClientId u.username)
      randomPassword := storage.getItem (randomPasswordKey u.poolClientId u.username)
      deviceGroupKey := storage.getItem (deviceGroupKeyKey u.poolClientId u.username) }
  else u

/-- `CognitoUser.clearCachedDeviceKeyAndPassword()` (source lines 758-768). -/
def clearCachedDeviceKeyAndPassword (u : CognitoUserState) (storage : Storage) : Storage :=
  ((storage.removeItem (deviceKeyKey u.poolClientId u.username)).removeItem
      (randomPasswordKey u.poolClientId u.username)).removeItem
      (deviceGroupKeyKey u.poolClientId u.username)

/-- `CognitoUser.clearCachedTokens()` (source lines 774-786). -/
def clearCachedTokens (u : CognitoUserState) (storage : Storage) : Storage :=
  (((storage.removeItem (idTokenKey u.poolClientId u.username)).removeItem
      (accessTokenKey u.poolClientId u.username)).removeItem
      (refreshTokenKey u.poolClientId u.username)).removeItem
      (lastUserKey u.poolClientId)

/-! ## Provider requests and responses -/

/-- The body of a `respondToAuthChallenge` request carrying a password
claim (challenge names `PASSWORD_VERIFIER` and `DEVICE_PASSWORD_VERIFIER`,
source lines 155-159 and 267-271). -/
structure RespondRequest where
  ChallengeName : String
  ClientId : String
  USERNAME : String
  PASSWORD_CLAIM_SECRET_BLOCK : String
  TIMESTAMP : String
  PASSWORD_CLAIM_SIGNATURE : HmacSignature
  DEVICE_KEY : Option String
  Session : Option String
deriving DecidableEq

/-- A request sent to the identity provider, as recorded in the run trace. -/
inductive SentRequest where
  | initiateAuth (AuthFlow ClientId USERNAME SRP_A : String)
      (DEVICE_KEY : Option String) (CHALLENGE_NAME : Option String)
      (ClientMetadata : List (String × String))
  | respondToAuthChallenge (req : RespondRequest)
  | deviceSrpAuth (ClientId USERNAME DEVICE_KEY SRP_A : String)
  | confirmDevice (DeviceKey AccessToken Salt PasswordVerifier DeviceName : String)
  | smsMfaRespond (ClientId USERNAME SMS_MFA_CODE : String)
      (DEVICE_KEY : Option String) (Session : Option String)
deriving DecidableEq

/-- The `USERNAME` field a request carries in its challenge responses, when
it has one (`initiateAuth` carries the pre-normalization username in its
auth parameters and `confirmDevice` carries none). -/
def SentRequest.challengeUsername : SentRequest → Option String
  | .respondToAuthChallenge r => some r.USERNAME
  | .deviceSrpAuth _ un _ _ => some un
  | .smsMfaRespond _ un _ _ _ => some un
  | _ => Option.none

/-- The invocation of the caller's callback object ending a run of
`authenticateUser`, `getDeviceResponse` or `sendMFACode`.  `onSuccess`
carries `self.signInUserSession` and the optional second
`userConfirmationNecessary` argument. -/
inductive AuthOutcome where
  | onFailure (err : String)
  | mfaRequired (challengeName : String)
  | customChallenge (params : List (String × String))
  | onSuccess (session : Option CognitoUserSession) (userConfirmationNecessary : Option Bool)
deriving DecidableEq

/-- The state, storage, callback invocation and request trace resulting
from one run of an authentication entry point. -/
structure AuthRun where
  user : CognitoUserState
  storage : Storage
  outcome : AuthOutcome
  trace : List SentRequest
deriving DecidableEq

/-- The `ChallengeParameters` of the `initiateAuth` response in
`authenticateUser` (source lines 125-133). -/
structure SrpChallengeParameters where
  USER_ID_FOR_SRP : String
  SRP_B : String
  SALT : String
  SECRET_BLOCK : String
deriving DecidableEq

/-- The successful `initiateAuth` response in `authenticateUser`. -/
structure InitiateAuthData where
  ChallengeParameters : SrpChallengeParameters
  Session : Option String
deriving DecidableEq

/-- A successful `respondToAuthChallenge` response (source lines 160-210):
an optional next challenge name, an optional provider session token,
challenge parameters, and the authentication result (read only when no
further challenge is selected). -/
structure ChallengeResponseData where
  ChallengeName : Option String
  Session : Option String
  ChallengeParameters : List (String × String)
  AuthenticationResult : AuthenticationResult
deriving DecidableEq

/-- The `ChallengeParameters` of the `DEVICE_SRP_AUTH` response in
`getDeviceResponse` (source lines 242-248). -/
structure DeviceChallengeParameters where
  SRP_B : String
  SALT : String
  SECRET_BLOCK : String
deriving DecidableEq

/-- The successful `DEVICE_SRP_AUTH` response. -/
structure DeviceSrpData where
  ChallengeParameters : DeviceChallengeParameters
  Session : Option String
deriving DecidableEq

/-- The successful `confirmDevice` response. -/
structure ConfirmDeviceData where
  UserConfirmationNecessary : Bool
deriving DecidableEq

/-- The provider responses consumed by one `authenticateUser` run, in the
order the nested callbacks fire. -/
structure ProviderEnv where
  initiateAuth : Except String InitiateAuthData
  respondPasswordVerifier : Except String ChallengeResponseData
  respondDeviceSrp : Except String DeviceSrpData
  respondDevicePasswordVerifier : Except String ChallengeResponseData
  confirmDevice : Except String ConfirmDeviceData

/-- Ambient values produced during a run: the fresh SRP ephemerals
(`getLargeAValue`), the timestamp strings (`dateHelper.getNowString()`),
and the device verifier material generated by `generateHashDevice`
(`getSaltDevices`, `getVerifierDevices`, `getRandomPassword`), plus
`navigator.userAgent`. -/
structure CryptoEnv where
  largeA : String
  dateNow : String
  deviceLargeA : String
  deviceDateNow : String
  saltDevices : String
  verifierDevices : String
  randomPassword : String
  userAgent : String

/-! ## The authentication state machine (source lines 95-283, 351-408) -/

/-- The new-device confirmation sub-flow shared verbatim by
`authenticateUser` (source lines 178-209) and `sendMFACode` (source lines
373-405): generate the device verifier, store the device secrets on the
object, call `confirmDevice`, and on success cache the device key and
report success (with the `UserConfirmationNecessary` flag when the
provider sets it).  A `confirmDevice` error is reported through
`callback.onFailure`. -/
def confirmDeviceFlow (u : CognitoUserState) (storage : Storage)
    (ndm : NewDeviceMetadata) (crypto : CryptoEnv)
    (confirmResp : Except String ConfirmDeviceData)
    (trace : List SentRequest) : AuthRun :=
  let u1 := { u with
    verifierDevices := some crypto.verifierDevices
    deviceGroupKey := some ndm.DeviceGroupKey
    randomPassword := some crypto.randomPassword }
  let accessTok := (u1.signInUserSession.map (·.accessToken)).getD "undefined"
  let trace1 := trace ++
    [SentRequest.confirmDevice ndm.DeviceKey accessTok crypto.saltDevices
      crypto.verifierDevices crypto.userAgent]
  match confirmResp with
  | .error e => { user := u1, storage := storage, outcome := .onFailure e, trace := trace1 }
  | .ok dataConfirm =>
      let u2 := { u1 with deviceKey := some ndm.DeviceKey }
      let storage1 := cacheDeviceKeyAndPassword u2 storage
      if dataConfirm.UserConfirmationNecessary = true then
        { user := u2, storage := storage1
          outcome := .onSuccess u2.signInUserSession (some true), trace := trace1 }
      else
        { user := u2, storage := storage1
          outcome := .onSuccess u2.signInUserSession Option.none, trace := trace1 }

/-- The `DEVICE_PASSWORD_VERIFIER` request `getDeviceResponse` sends
(source lines 259-271): the shared key is derived with the stored
`deviceKey` as username and `randomPassword` as password, on a helper
keyed by `deviceGroupKey`; an `Option` device field read while absent
appears as the JS string coercion `"undefined"`. -/
def devicePasswordVerifierRequest (u : CognitoUserState)
    (cp : DeviceChallengeParameters) (sessionTok : Option String)
    (crypto : CryptoEnv) : RespondRequest :=
  { ChallengeName := "DEVICE_PASSWORD_VERIFIER", ClientId := u.poolClientId
    USERNAME := u.username, PASSWORD_CLAIM_SECRET_BLOCK := cp.SECRET_BLOCK
    TIMESTAMP := crypto.deviceDateNow
    PASSWORD_CLAIM_SIGNATURE :=
      { key := getPasswordAuthenticationKey (u.deviceGroupKey.getD "undefined")
          (u.deviceKey.getD "undefined") (u.randomPassword.getD "undefined")
          cp.SRP_B cp.SALT
        parts := [u.deviceGroupKey.getD "undefined", u.deviceKey.getD "undefined",
          cp.SECRET_BLOCK, crypto.deviceDateNow] }
    DEVICE_KEY := some (u.deviceKey.getD "undefined"), Session := sessionTok }

/-- `CognitoUser.getDeviceResponse(callback)` (source lines 222-283): the
device SRP sub-flow.  A fresh `AuthenticationHelper` is keyed by the
stored `deviceGroupKey`; the first round sends the device SRP A value,
the second answers with the `DEVICE_PASSWORD_VERIFIER` request; success
builds and caches the session and reports it directly. -/
def getDeviceResponse (u : CognitoUserState) (storage : Storage)
    (env : ProviderEnv) (crypto : CryptoEnv) (trace : List SentRequest) : AuthRun :=
  let dk := u.deviceKey.getD "undefined"
  let srpReq := SentRequest.deviceSrpAuth u.poolClientId u.username dk crypto.deviceLargeA
  let trace1 := trace ++ [srpReq]
  match env.respondDeviceSrp with
  | .error e => { user := u, storage := storage, outcome := .onFailure e, trace := trace1 }
  | .ok data =>
      let respondReq : RespondRequest :=
        devicePasswordVerifierRequest u data.ChallengeParameters data.Session crypto
      let trace2 := trace1 ++ [SentRequest.respondToAuthChallenge respondReq]
      match env.respondDevicePasswordVerifier with
      | .error e => { user := u, storage := storage, outcome := .onFailure e, trace := trace2 }
      | .ok dataAuthenticate =>
          let sess := getCognitoUserSession dataAuthenticate.AuthenticationResult
          let u1 := { u with signInUserSession := some sess }
          let storage1 := cacheTokens u1 storage
          { user := u1, storage := storage1
            outcome := .onSuccess u1.signInUserSession Option.none, trace := trace2 }

/-- The branch selection on the `PASSWORD_VERIFIER` response (source lines
165-210, the body of the inner callback after the error check): `SMS_MFA`
and `CUSTOM_CHALLENGE` store the provider session token and hand control
back; `DEVICE_SRP_AUTH` enters the device sub-flow; anything else wraps
`AuthenticationResult`, caches the tokens and reports success, entering
the device-confirmation sub-flow when new-device metadata is present. -/
def handleAuthChallengeResponse (u : CognitoUserState) (storage : Storage)
    (dataAuthenticate : ChallengeResponseData) (env : ProviderEnv)
    (crypto : CryptoEnv) (trace : List SentRequest) : AuthRun :=
  match dataAuthenticate.ChallengeName with
  | some cn =>
      if cn = "SMS_MFA" then
        { user := { u with Session := dataAuthenticate.Session }, storage := storage
          outcome := .mfaRequired cn, trace := trace }
      else if cn = "CUSTOM_CHALLENGE" then
        { user := { u with Session := dataAuthenticate.Session }, storage := storage
          outcome := .customChallenge dataAuthenticate.ChallengeParameters, trace := trace }
      else if cn = "DEVICE_SRP_AUTH" then
        getDeviceResponse u storage env crypto trace
      else
        authenticatedBranch u storage dataAuthenticate env crypto trace
  | Option.none => authenticatedBranch u storage dataAuthenticate env crypto trace
where
  /-- The final `else` branch of the dispatch (source lines 174-210). -/
  authenticatedBranch (u : CognitoUserState) (storage : Storage)
      (dataAuthenticate : ChallengeResponseData) (env : ProviderEnv)
      (crypto : CryptoEnv) (trace : List SentRequest) : AuthRun :=
    let sess := getCognitoUserSession dataAuthenticate.AuthenticationResult
    let u1 := { u with signInUserSession := some sess }
    let storage1 := cacheTokens u1 storage
    match dataAuthenticate.AuthenticationResult.NewDeviceMetadata with
    | some ndm => confirmDeviceFlow u1 storage1 ndm crypto env.confirmDevice trace
    | Option.none =>
        { user := u1, storage := storage1
          outcome := .onSuccess u1.signInUserSession Option.none, trace := trace }

/-- The caller-supplied `AuthenticationDetails`. -/
structure AuthenticationDetails where
  username : String
  password : String
  validationData : List (String × String)

/-- The `initiateAuth` request `authenticateUser` sends (source lines
102-119): the pre-normalization username, the fresh SRP A value, the
device key when one is remembered, and the `SRP_A` challenge-name marker
for the custom-auth flow. -/
def initiateAuthRequest (u : CognitoUserState) (authDetails : AuthenticationDetails)
    (crypto : CryptoEnv) : SentRequest :=
  SentRequest.initiateAuth u.authenticationFlowType u.poolClientId u.username
    crypto.largeA u.deviceKey
    (if u.authenticationFlowType = "CUSTOM_AUTH" then some "SRP_A" else Option.none)
    authDetails.validationData

/-- The `PASSWORD_VERIFIER` request `authenticateUser` sends (source lines
132-159), built from the post-normalization state `u2`: the HKDF key is
derived from the canonical username and account password, and the HMAC
message is pool id part, username, secret block, timestamp. -/
def passwordVerifierRequest (u2 : CognitoUserState) (helperPoolId : String)
    (authDetails : AuthenticationDetails) (cp : SrpChallengeParameters)
    (sessionTok : Option String) (crypto : CryptoEnv) : RespondRequest :=
  { ChallengeName := "PASSWORD_VERIFIER", ClientId := u2.poolClientId
    USERNAME := u2.username, PASSWORD_CLAIM_SECRET_BLOCK := cp.SECRET_BLOCK
    TIMESTAMP := crypto.dateNow
    PASSWORD_CLAIM_SIGNATURE :=
      { key := getPasswordAuthenticationKey helperPoolId u2.username
          authDetails.password cp.SRP_B cp.SALT
        parts := [helperPoolId, u2.username, cp.SECRET_BLOCK, crypto.dateNow] }
    DEVICE_KEY := u2.deviceKey, Session := sessionTok }

/-- `CognitoUser.authenticateUser(authDetails, callback)` (source lines
95-213): send `initiateAuth` with the SRP A value; on success replace
`this.username` with the canonical `USER_ID_FOR_SRP`, load any cached
device credentials, derive the HKDF key and HMAC proof, answer the
`PASSWORD_VERIFIER` challenge, and dispatch on the response's challenge
name. -/
def authenticateUser (u : CognitoUserState) (storage : Storage)
    (authDetails : AuthenticationDetails) (env : ProviderEnv)
    (crypto : CryptoEnv) : AuthRun :=
  let helperPoolId := splitUnderscoreIdx1 u.poolUserPoolId
  let initReq := initiateAuthRequest u authDetails crypto
  match env.initiateAuth with
  | .error e => { user := u, storage := storage, outcome := .onFailure e, trace := [initReq] }
  | .ok data =>
      let cp := data.ChallengeParameters
      let u1 := { u with username := cp.USER_ID_FOR_SRP }
      let u2 := getCachedDeviceKeyAndPassword u1 storage
      let respondReq : RespondRequest :=
        passwordVerifierRequest u2 helperPoolId authDetails cp data.Session crypto
      let trace1 := [initReq, SentRequest.respondToAuthChallenge respondReq]
      match env.respondPasswordVerifier with
      | .error e =>
          { user := u2, storage := storage, outcome := .onFailure e, trace := trace1 }
      | .ok dataAuthenticate =>
          handleAuthChallengeResponse u2 storage dataAuthenticate env crypto trace1

/-- `CognitoUser.sendMFACode(confirmationCode, callback)` (source lines
351-408): answer the `SMS_MFA` challenge with the stored provider session
token; every successful response is treated as a final
`AuthenticationResult` (the handler never inspects a returned challenge
name): the session is built and cached, and the device-confirmation
sub-flow runs when new-device metadata is present. -/
def sendMFACode (u : CognitoUserState) (storage : Storage)
    (confirmationCode : String)
    (respondSmsMfa : Except String ChallengeResponseData)
    (confirmResp : Except String ConfirmDeviceData)
    (crypto : CryptoEnv) : AuthRun :=
  let req := SentRequest.smsMfaRespond u.poolClientId u.username confirmationCode
    u.deviceKey u.Session
  match respondSmsMfa with
  | .error e => { user := u, storage := storage, outcome := .onFailure e, trace := [req] }
  | .ok dataAuthenticate =>
      let sess := getCognitoUserSession dataAuthenticate.AuthenticationResult
      let u1 := { u with signInUserSession := some sess }
      let storage1 := cacheTokens u1 storage
      match dataAuthenticate.AuthenticationResult.NewDeviceMetadata with
      | some ndm => confirmDeviceFlow u1 storage1 ndm crypto confirmResp [req]
      | Option.none =>
          { user := u1, storage := storage1
            outcome := .onSuccess u1.signInUserSession Option.none, trace := [req] }

/-! ## Session resume and refresh (source lines 622-700) -/

/-- The callback invocation ending a `getSession`/`refreshSession` run.
`noCallback` records the execution paths on which the JS function returns
without invoking the caller's callback at all. -/
inductive SessionOutcome where
  | err (msg : String)
  | ok (session : CognitoUserSession)
  | noCallback
deriving DecidableEq

/-- The result of a `getSession`/`refreshSession` run. -/
structure SessionRun where
  user : CognitoUserState
  storage : Storage
  result : SessionOutcome
deriving DecidableEq

/-- The successful `REFRESH_TOKEN_AUTH` `initiateAuth` response. -/
structure RefreshResponse where
  AuthenticationResult : AuthenticationResult
deriving DecidableEq

/-- `CognitoUser.refreshSession(refreshToken, callback)` (source lines
669-700): read the last authenticated user and their device key from the
cache, call `initiateAuth` with flow `REFRESH_TOKEN_AUTH`, and if the
response omits the `RefreshToken` property, patch in the refresh token
that was passed (its `getToken()` value, `refreshTokenVal`); then replace
the in-memory session and cache it.  The JS guard `if (authResult)` is
always taken on a successful call. -/
def refreshSession (u : CognitoUserState) (storage : Storage)
    (refreshTokenVal : Option String)
    (refreshEnv : Except String RefreshResponse) : SessionRun :=
  let u1 :=
    if jsTruthy (storage.getItem (lastUserKey u.poolClientId)) then
      let uname := (storage.getItem (lastUserKey u.poolClientId)).getD "undefined"
      { u with username := uname
               deviceKey := storage.getItem (deviceKeyKey u.poolClientId uname) }
    else u
  match refreshEnv with
  | .error e => { user := u1, storage := storage, result := .err e }
  | .ok authResult =>
      let ar := authResult.AuthenticationResult
      let ar1 := if ar.RefreshToken = Option.none then
          { ar with RefreshToken := refreshTokenVal }
        else ar
      let sess := getCognitoUserSession ar1
      let u2 := { u1 with signInUserSession := some sess }
      { user := u2, storage := cacheTokens u2 storage, result := .ok sess }

/-- The part of `getSession` after the in-memory checks (source lines
631-658): the cache-resume algorithm.  When the cached ID token is not
truthy the enclosing `if` has no `else` and the function returns without
invoking the callback. -/
def getSessionFromCache (dec : String → Nat) (now : Nat)
    (u : CognitoUserState) (storage : Storage)
    (refreshEnv : Except String RefreshResponse) : SessionRun :=
  match storage.getItem (idTokenKey u.poolClientId u.username) with
  | some idTok =>
      if idTok ≠ "" then
        let accessTok := (storage.getItem (accessTokenKey u.poolClientId u.username)).getD
          "undefined"
        let refreshTok := storage.getItem (refreshTokenKey u.poolClientId u.username)
        let cachedSession : CognitoUserSession :=
          { idToken := idTok, accessToken := accessTok, refreshToken := refreshTok }
        if cachedSession.isValid dec now then
          { user := { u with signInUserSession := some cachedSession }
            storage := storage, result := .ok cachedSession }
        else if refreshTok ≠ Option.none then
          refreshSession u storage refreshTok refreshEnv
        else
          { user := u, storage := storage
            result := .err "Cannot retrieve a new session. Please authenticate." }
      else
        { user := u, storage := storage, result := .noCallback }
  | Option.none => { user := u, storage := storage, result := .noCallback }

/-- `CognitoUser.getSession(callback)` (source lines 622-659): return the
in-memory session when valid, otherwise resume from the cache.  The
constructor guarantees `this.username` is a string, so the initial
null-username guard does not fire; `username` is modelled as `String`. -/
def getSession (dec : String → Nat) (now : Nat) (u : CognitoUserState)
    (storage : Storage) (refreshEnv : Except String RefreshResponse) : SessionRun :=
  match u.signInUserSession with
  | some s =>
      if s.isValid dec now then { user := u, storage := storage, result := .ok s }
      else getSessionFromCache dec now u storage refreshEnv
  | Option.none => getSessionFromCache dec now u storage refreshEnv

/-! ## Protected single-round operations (source lines 418-1062) -/

/-- The result delivered by a protected operation's callback. -/
inductive OpResult where
  | errResult (msg : String)
  | okResult (v : String)
  | okAttributes (attrs : List (String × String))
  | okDeviceData (v : String)
  | verificationCode (v : String)
deriving DecidableEq

/-- A protected operation run: the provider operations it invoked (by
name) and the callback result.  An empty `calls` list means no request
reached the identity provider. -/
structure OpRun where
  calls : List String
  result : OpResult
deriving DecidableEq

/-- A protected operation run that can also mutate the object and the
cache (`forgetDevice`, `globalSignOut`). -/
structure OpStateRun where
  user : CognitoUserState
  storage : Storage
  calls : List String
  result : OpResult
deriving DecidableEq

/-- `CognitoUser.changePassword` (source lines 418-434). -/
def changePassword (dec : String → Nat) (now : Nat) (u : CognitoUserState)
    (oldUserPassword newUserPassword : String) (env : Except String Unit) : OpRun :=
  if hasValidSession dec now u then
    { calls := ["changePassword"]
      result := match env with
        | .error e => .errResult e
        | .ok _ => .okResult "SUCCESS" }
  else { calls := [], result := .errResult "User is not authenticated" }

/-- `CognitoUser.enableMFA` (source lines 442-464). -/
def enableMFA (dec : String → Nat) (now : Nat) (u : CognitoUserState)
    (env : Except String Unit) : OpRun :=
  if hasValidSession dec now u then
    { calls := ["setUserSettings"]
      result := match env with
        | .error e => .errResult e
        | .ok _ => .okResult "SUCCESS" }
  else { calls := [], result := .errResult "User is not authenticated" }

/-- `CognitoUser.disableMFA` (source lines 472-489). -/
def disableMFA (dec : String → Nat) (now : Nat) (u : CognitoUserState)
    (env : Except String Unit) : OpRun :=
  if hasValidSession dec now u then
    { calls := ["setUserSettings"]
      result := match env with
        | .error e => .errResult e
        | .ok _ => .okResult "SUCCESS" }
  else { calls := [], result := .errResult "User is not authenticated" }

/-- `CognitoUser.deleteUser` (source lines 498-512). -/
def deleteUser (dec : String → Nat) (now : Nat) (u : CognitoUserState)
    (env : Except String Unit) : OpRun :=
  if hasValidSession dec now u then
    { calls := ["deleteUser"]
      result := match env with
        | .error e => .errResult e
        | .ok _ => .okResult "SUCCESS" }
  else { calls := [], result := .errResult "User is not authenticated" }

/-- `CognitoUser.updateAttributes` (source lines 521-536). -/
def updateAttributes (dec : String → Nat) (now : Nat) (u : CognitoUserState)
    (attributes : List (String × String)) (env : Except String Unit) : OpRun :=
  if hasValidSession dec now u then
    { calls := ["updateUserAttributes"]
      result := match env with
        | .error e => .errResult e
        | .ok _ => .okResult "SUCCESS" }
  else { calls := [], result := .errResult "User is not authenticated" }

/-- `CognitoUser.getUserAttributes` (source lines 544-569): on success the
provider's `UserAttributes` are repackaged as name/value pairs. -/
def getUserAttributes (dec : String → Nat) (now : Nat) (u : CognitoUserState)
    (env : Except String (List (String × String))) : OpRun :=
  if hasValidSession dec now u then
    { calls := ["getUser"]
      result := match env with
        | .error e => .errResult e
        | .ok attrs => .okAttributes (attrs.map (fun a => (a.1, a.2))) }
  else { calls := [], result := .errResult "User is not authenticated" }

/-- `CognitoUser.deleteAttributes` (source lines 578-593). -/
def deleteAttributes (dec : String → Nat) (now : Nat) (u : CognitoUserState)
    (attributeList : List String) (env : Except String Unit) : OpRun :=
  if hasValidSession dec now u then
    { calls := ["deleteUserAttributes"]
      result := match env with
        | .error e => .errResult e
        | .ok _ => .okResult "SUCCESS" }
  else { calls := [], result := .errResult "User is not authenticated" }

/-- `CognitoUser.getAttributeVerificationCode` (source lines 864-879). -/
def getAttributeVerificationCode (dec : String → Nat) (now : Nat)
    (u : CognitoUserState) (attributeName : String)
    (env : Except String String) : OpRun :=
  if hasValidSession dec now u then
    { calls := ["getUserAttributeVerificationCode"]
      result := match env with
        | .error e => .errResult e
        | .ok data => .verificationCode data }
  else { calls := [], result := .errResult "User is not authenticated" }

/-- `CognitoUser.verifyAttribute` (source lines 890-906). -/
def verifyAttribute (dec : String → Nat) (now : Nat) (u : CognitoUserState)
    (attributeName confirmationCode : String) (env : Except String Unit) : OpRun :=
  if hasValidSession dec now u then
    { calls := ["verifyUserAttribute"]
      result := match env with
        | .error e => .errResult e
        | .ok _ => .okResult "SUCCESS" }
  else { calls := [], result := .errResult "User is not authenticated" }

/-- `CognitoUser.getDevice` (source lines 916-931). -/
def getDevice (dec : String → Nat) (now : Nat) (u : CognitoUserState)
    (env : Except String String) : OpRun :=
  if hasValidSession dec now u then
    { calls := ["getDevice"]
      result := match env with
        | .error e => .errResult e
        | .ok data => .okDeviceData data }
  else { calls := [], result := .errResult "User is not authenticated" }

/-- `CognitoUser.forgetDevice` (source lines 940-960): on success the
source nulls `this.deviceKey`, `this.deviceGroupkey` (note the lower-case
`k`: a property distinct from `deviceGroupKey`) and `this.randomPassword`,
then clears the three device cache entries. -/
def forgetDevice (dec : String → Nat) (now : Nat) (u : CognitoUserState)
    (storage : Storage) (env : Except String Unit) : OpStateRun :=
  if hasValidSession dec now u then
    match env with
    | .error e =>
        { user := u, storage := storage, calls := ["forgetDevice"], result := .errResult e }
    | .ok _ =>
        let u1 := { u with deviceKey := Option.none, deviceGroupkey := Option.none
                           randomPassword := Option.none }
        { user := u1, storage := clearCachedDeviceKeyAndPassword u1 storage
          calls := ["forgetDevice"], result := .okResult "SUCCESS" }
  else
    { user := u, storage := storage, calls := []
      result := .errResult "User is not authenticated" }

/-- `CognitoUser.setDeviceStatusRemembered` (source lines 969-985). -/
def setDeviceStatusRemembered (dec : String → Nat) (now : Nat)
    (u : CognitoUserState) (env : Except String Unit) : OpRun :=
  if hasValidSession dec now u then
    { calls := ["updateDeviceStatus"]
      result := match env with
        | .error e => .errResult e
        | .ok _ => .okResult "SUCCESS" }
  else { calls := [], result := .errResult "User is not authenticated" }

/-- `CognitoUser.setDeviceStatusNotRemembered` (source lines 994-1010). -/
def setDeviceStatusNotRemembered (dec : String → Nat) (now : Nat)
    (u : CognitoUserState) (env : Except String Unit) : OpRun :=
  if hasValidSession dec now u then
    { calls := ["updateDeviceStatus"]
      result := match env with
        | .error e => .errResult e
        | .ok _ => .okResult "SUCCESS" }
  else { calls := [], result := .errResult "User is not authenticated" }

/-- `CognitoUser.listDevices` (source lines 1021-1037). -/
def listDevices (dec : String → Nat) (now : Nat) (u : CognitoUserState)
    (limit : Nat) (paginationToken : String) (env : Except String String) : OpRun :=
  if hasValidSession dec now u then
    { calls := ["listDevices"]
      result := match env with
        | .error e => .errResult e
        | .ok data => .okDeviceData data }
  else { calls := [], result := .errResult "User is not authenticated" }

/-- `CognitoUser.globalSignOut` (source lines 1046-1062). -/
def globalSignOut (dec : String → Nat) (now : Nat) (u : CognitoUserState)
    (storage : Storage) (env : Except String Unit) : OpStateRun :=
  if hasValidSession dec now u then
    match env with
    | .error e =>
        { user := u, storage := storage, calls := ["globalSignOut"], result := .errResult e }
    | .ok _ =>
        { user := u, storage := clearCachedTokens u storage
          calls := ["globalSignOut"], result := .okResult "SUCCESS" }
  else
    { user := u, storage := storage, calls := []
      result := .errResult "User is not authenticated" }

/-! ## Helper lemmas about the cache -/

theorem idTokenKey_ne_accessTokenKey (c un : String) :
    idTokenKey c un ≠ accessTokenKey c un :=
  userField_ne c un ".idToken" ".accessToken" (by decide)

theorem idTokenKey_ne_refreshTokenKey (c un : String) :
    idTokenKey c un ≠ refreshTokenKey c un :=
  userField_ne c un ".idToken" ".refreshToken" (by decide)

theorem accessTokenKey_ne_refreshTokenKey (c un : String) :
    accessTokenKey c un ≠ refreshTokenKey c un :=
  userField_ne c un ".accessToken" ".refreshToken" (by decide)

theorem idTokenKey_ne_deviceKeyKey (c un : String) :
    idTokenKey c un ≠ deviceKeyKey c un :=
  userField_ne c un ".idToken" ".deviceKey" (by decide)

theorem idTokenKey_ne_randomPasswordKey (c un : String) :
    idTokenKey c un ≠ randomPasswordKey c un :=
  userField_ne c un ".idToken" ".randomPasswordKey" (by decide)

theorem idTokenKey_ne_deviceGroupKeyKey (c un : String) :
    idTokenKey c un ≠ deviceGroupKeyKey c un :=
  userField_ne c un ".idToken" ".deviceGroupKey" (by decide)

theorem accessTokenKey_ne_deviceKeyKey (c un : String) :
    accessTokenKey c un ≠ deviceKeyKey c un :=
  userField_ne c un ".accessToken" ".deviceKey" (by decide)

theorem accessTokenKey_ne_randomPasswordKey (c un : String) :
    accessTokenKey c un ≠ randomPasswordKey c un :=
  userField_ne c un ".accessToken" ".randomPasswordKey" (by decide)

theorem accessTokenKey_ne_deviceGroupKeyKey (c un : String) :
    accessTokenKey c un ≠ deviceGroupKeyKey c un :=
  userField_ne c un ".accessToken" ".deviceGroupKey" (by decide)

theorem refreshTokenKey_ne_deviceKeyKey (c un : String) :
    refreshTokenKey c un ≠ deviceKeyKey c un :=
  userField_ne c un ".refreshToken" ".deviceKey" (by decide)

theorem refreshTokenKey_ne_randomPasswordKey (c un : String) :
    refreshTokenKey c un ≠ randomPasswordKey c un :=
  userField_ne c un ".refreshToken" ".randomPasswordKey" (by decide)

theorem refreshTokenKey_ne_deviceGroupKeyKey (c un : String) :
    refreshTokenKey c un ≠ deviceGroupKeyKey c un :=
  userField_ne c un ".refreshToken" ".deviceGroupKey" (by decide)

theorem getItem_cacheTokens_idToken (u : CognitoUserState) (st : Storage)
    (s : CognitoUserSession) (h : u.signInUserSession = some s) :
    (cacheTokens u st).getItem (idTokenKey u.poolClientId u.username) = some s.idToken := by
  simp [cacheTokens, h, getItem_setItem, idTokenKey_ne_lastUserKey,
    idTokenKey_ne_refreshTokenKey, idTokenKey_ne_accessTokenKey]

theorem getItem_cacheTokens_accessToken (u : CognitoUserState) (st : Storage)
    (s : CognitoUserSession) (h : u.signInUserSession = some s) :
    (cacheTokens u st).getItem (accessTokenKey u.poolClientId u.username) =
      some s.accessToken := by
  simp [cacheTokens, h, getItem_setItem, accessTokenKey_ne_lastUserKey,
    accessTokenKey_ne_refreshTokenKey]

theorem getItem_cacheTokens_refreshToken (u : CognitoUserState) (st : Storage)
    (s : CognitoUserSession) (h : u.signInUserSession = some s) :
    (cacheTokens u st).getItem (refreshTokenKey u.poolClientId u.username) =
      some (s.refreshToken.getD "null") := by
  simp [cacheTokens, h, getItem_setItem, refreshTokenKey_ne_lastUserKey]

theorem getItem_cacheTokens_lastUser (u : CognitoUserState) (st : Storage)
    (s : CognitoUserSession) (h : u.signInUserSession = some s) :
    (cacheTokens u st).getItem (lastUserKey u.poolClientId) = some u.username := by
  simp [cacheTokens, h, getItem_setItem]

theorem getItem_cacheDeviceKeyAndPassword_ne (u : CognitoUserState) (st : Storage)
    (k : String)
    (h1 : k ≠ deviceKeyKey u.poolClientId u.username)
    (h2 : k ≠ randomPasswordKey u.poolClientId u.username)
    (h3 : k ≠ deviceGroupKeyKey u.poolClientId u.username) :
    (cacheDeviceKeyAndPassword u st).getItem k = st.getItem k := by
  simp [cacheDeviceKeyAndPassword, getItem_setItem, h1, h2, h3]

/-! ## Preservation lemmas for the authentication flows -/

theorem getCachedDeviceKeyAndPassword_fields (u : CognitoUserState) (st : Storage) :
    (getCachedDeviceKeyAndPassword u st).username = u.username ∧
    (getCachedDeviceKeyAndPassword u st).poolUserPoolId = u.poolUserPoolId ∧
    (getCachedDeviceKeyAndPassword u st).poolClientId = u.poolClientId ∧
    (getCachedDeviceKeyAndPassword u st).signInUserSession = u.signInUserSession := by
  unfold getCachedDeviceKeyAndPassword
  split <;> simp

theorem confirmDeviceFlow_fields (u : CognitoUserState) (st : Storage)
    (ndm : NewDeviceMetadata) (crypto : CryptoEnv)
    (confirmResp : Except String ConfirmDeviceData) (tr : List SentRequest) :
    (confirmDeviceFlow u st ndm crypto confirmResp tr).user.username = u.username ∧
    (confirmDeviceFlow u st ndm crypto confirmResp tr).user.poolUserPoolId = u.poolUserPoolId ∧
    (confirmDeviceFlow u st ndm crypto confirmResp tr).user.poolClientId = u.poolClientId ∧
    (confirmDeviceFlow u st ndm crypto confirmResp tr).user.signInUserSession =
      u.signInUserSession ∧
    ∃ extra, (confirmDeviceFlow u st ndm crypto confirmResp tr).trace = tr ++ extra ∧
      ∀ q ∈ extra, ∀ x, q.challengeUsername = some x → x = u.username := by
  unfold confirmDeviceFlow
  rcases confirmResp with e | d
  · simp [SentRequest.challengeUsername]
  · by_cases hc : d.UserConfirmationNecessary = true <;>
      simp [hc, SentRequest.challengeUsername]

theorem getDeviceResponse_fields (u : CognitoUserState) (st : Storage)
    (env : ProviderEnv) (crypto : CryptoEnv) (tr : List SentRequest) :
    (getDeviceResponse u st env crypto tr).user.username = u.username ∧
    (getDeviceResponse u st env crypto tr).user.poolUserPoolId = u.poolUserPoolId ∧
    (getDeviceResponse u st env crypto tr).user.poolClientId = u.poolClientId ∧
    ∃ extra, (getDeviceResponse u st env crypto tr).trace = tr ++ extra ∧
      ∀ q ∈ extra, ∀ x, q.challengeUsername = some x → x = u.username := by
  unfold getDeviceResponse
  rcases henv : env.respondDeviceSrp with e | d
  · simp [SentRequest.challengeUsername]
  · rcases henv2 : env.respondDevicePasswordVerifier with e2 | d2 <;>
      simp [SentRequest.challengeUsername, devicePasswordVerifierRequest]

theorem handleAuthChallengeResponse_fields (u : CognitoUserState) (st : Storage)
    (d : ChallengeResponseData) (env : ProviderEnv) (crypto : CryptoEnv)
    (tr : List SentRequest) :
    (handleAuthChallengeResponse u st d env crypto tr).user.username = u.username ∧
    (handleAuthChallengeResponse u st d env crypto tr).user.poolUserPoolId =
      u.poolUserPoolId ∧
    (handleAuthChallengeResponse u st d env crypto tr).user.poolClientId = u.poolClientId ∧
    ∃ extra, (handleAuthChallengeResponse u st d env crypto tr).trace = tr ++ extra ∧
      ∀ q ∈ extra, ∀ x, q.challengeUsername = some x → x = u.username := by
  unfold handleAuthChallengeResponse
  have hbranch : ∀ st' tr',
      (handleAuthChallengeResponse.authenticatedBranch u st' d env crypto tr').user.username =
        u.username ∧
      (handleAuthChallengeResponse.authenticatedBranch u st' d env crypto
          tr').user.poolUserPoolId = u.poolUserPoolId ∧
      (handleAuthChallengeResponse.authenticatedBranch u st' d env crypto
          tr').user.poolClientId = u.poolClientId ∧
      ∃ extra,
        (handleAuthChallengeResponse.authenticatedBranch u st' d env crypto tr').trace =
          tr' ++ extra ∧
        ∀ q ∈ extra, ∀ x, q.challengeUsername = some x → x = u.username := by
    intro st' tr'
    unfold handleAuthChallengeResponse.authenticatedBranch
    rcases d.AuthenticationResult.NewDeviceMetadata with _ | ndm
    · simp
    · have h := confirmDeviceFlow_fields
        { u with signInUserSession := some (getCognitoUserSession d.AuthenticationResult) }
        (cacheTokens
          { u with signInUserSession := some (getCognitoUserSession d.AuthenticationResult) }
          st')
        ndm crypto env.confirmDevice tr'
      obtain ⟨h1, h2, h3, h4, h5⟩ := h
      exact ⟨h1, h2, h3, h5⟩
  rcases hcn : d.ChallengeName with _ | cn
  · exact hbranch st tr
  · by_cases h1 : cn = "SMS_MFA"
    · simp [h1]
    · by_cases h2 : cn = "CUSTOM_CHALLENGE"
      · simp [h1, h2]
      · by_cases h3 : cn = "DEVICE_SRP_AUTH"
        · simpa [h1, h2, h3] using getDeviceResponse_fields u st env crypto tr
        · simpa [h1, h2, h3] using hbranch st tr

/-! ## Concrete fixtures for the witnesses and counterexamples -/

/-- A concrete session: three bearer tokens as received from the provider. -/
def sessionW : CognitoUserSession :=
  { idToken := "idA", accessToken := "accA", refreshToken := some "refA" }

/-- A concrete signed-in user in pool `p_abc` with app client `c1`. -/
def userW : CognitoUserState :=
  { username := "alice", poolUserPoolId := "p_abc", poolClientId := "c1"
    authenticationFlowType := "USER_SRP_AUTH", Session := Option.none
    signInUserSession := some sessionW, deviceKey := some "dkey"
    deviceGroupKey := some "dgroup", deviceGroupkey := Option.none
    randomPassword := some "rpass", verifierDevices := Option.none }

/-- The same user with no in-memory session. -/
def userNoSessionW : CognitoUserState := { userW with signInUserSession := Option.none }

/-- A token-expiry decoder under which every token expires at time 1. -/
def decW : String → Nat := fun _ => 1

/-- Concrete ambient crypto values for witness runs. -/
def cryptoW : CryptoEnv :=
  { largeA := "aaaa", dateNow := "Tue Feb 17 12:00:00 UTC 2026"
    deviceLargeA := "dddd", deviceDateNow := "Tue Feb 17 12:00:05 UTC 2026"
    saltDevices := "saltD", verifierDevices := "verD"
    randomPassword := "randP", userAgent := "agent" }

/-- Concrete authentication details for witness runs. -/
def authDetailsW : AuthenticationDetails :=
  { username := "alice", password := "Secret123", validationData := [] }

/-! ## C3 -/

/-- C3 counterexample: the claim asserts cache keys of the form
`providerId.clientId.username.field` whose first component identifies the
user pool (the spec's example `p_abc_c1_USERPOOL.c1.alice.idToken`).  On a
concrete successful authentication for pool `p_abc`, no value is cached
under the pool-derived key; the ID token sits under the constant prefix
`CognitoIdentityServiceProvider`. -/
theorem cacheTokens_providerId_cex :
    (cacheTokens userW []).getItem "p_abc_c1_USERPOOL.c1.alice.idToken" = Option.none ∧
    (cacheTokens userW []).getItem "CognitoIdentityServiceProvider.c1.alice.idToken" =
      some "idA" := by
  exact ⟨rfl, rfl⟩

/-- C3 (amended): `cacheTokens` persists the tokens under keys
`CognitoIdentityServiceProvider.{clientId}.{username}.{field}` for the
fields `idToken`, `accessToken` and `refreshToken` — the first component
is the fixed literal `CognitoIdentityServiceProvider`, not a pool-derived
provider id — and the last authenticated username under
`CognitoIdentityServiceProvider.{clientId}.LastAuthUser`. -/
theorem cacheTokens_key_schema (u : CognitoUserState) (st : Storage)
    (s : CognitoUserSession) (h : u.signInUserSession = some s) :
    (cacheTokens u st).getItem
      ("CognitoIdentityServiceProvider." ++ u.poolClientId ++ "." ++ u.username ++
        ".idToken") = some s.idToken ∧
    (cacheTokens u st).getItem
      ("CognitoIdentityServiceProvider." ++ u.poolClientId ++ "." ++ u.username ++
        ".accessToken") = some s.accessToken ∧
    (cacheTokens u st).getItem
      ("CognitoIdentityServiceProvider." ++ u.poolClientId ++ "." ++ u.username ++
        ".refreshToken") = some (s.refreshToken.getD "null") ∧
    (cacheTokens u st).getItem
      ("CognitoIdentityServiceProvider." ++ u.poolClientId ++ ".LastAuthUser") =
      some u.username :=
  ⟨getItem_cacheTokens_idToken u st s h, getItem_cacheTokens_accessToken u st s h,
    getItem_cacheTokens_refreshToken u st s h, getItem_cacheTokens_lastUser u st s h⟩

/-- C3 witness: the amended key schema evaluated on the concrete user. -/
theorem cacheTokens_key_schema_witness :
    (cacheTokens userW []).getItem "CognitoIdentityServiceProvider.c1.alice.idToken" =
      some "idA" ∧
    (cacheTokens userW []).getItem "CognitoIdentityServiceProvider.c1.alice.accessToken" =
      some "accA" ∧
    (cacheTokens userW []).getItem "CognitoIdentityServiceProvider.c1.alice.refreshToken" =
      some "refA" ∧
    (cacheTokens userW []).getItem "CognitoIdentityServiceProvider.c1.LastAuthUser" =
      some "alice" := by
  have h := cacheTokens_key_schema userW [] sessionW rfl
  exact h

/-! ## C4 -/

/-- C4 (code bug): with a non-null username, no in-memory session and no
cached ID token, `getSession` invokes no callback at all: the inner
`if (storage.getItem(idTokenKey))` has no `else`, so the claimed
reauthentication-required error is never delivered. -/
theorem getSession_missing_idToken_silent :
    getSession decW 0 userNoSessionW [] (.error "unused") =
      { user := userNoSessionW, storage := [], result := .noCallback } := by
  rfl

/-! ## C9 -/

/-- C9: every protected operation invoked while the in-memory session is
null or invalid fails locally with the not-authenticated error and sends
no request to the identity provider (`calls = []`), leaving object state
and cache untouched. -/
theorem protected_ops_require_valid_session (dec : String → Nat) (now : Nat)
    (u : CognitoUserState) (st : Storage)
    (o n an cc pt : String) (attrs : List (String × String))
    (attrNames : List String) (lim : Nat)
    (e1 e2 e3 e4 e5 e7 e9 e10 e12 e13 e14 : Except String Unit)
    (e6 : Except String (List (String × String)))
    (e8 e11 e15 : Except String String)
    (h : hasValidSession dec now u = false) :
    changePassword dec now u o n e1 =
      { calls := [], result := .errResult "User is not authenticated" } ∧
    enableMFA dec now u e2 =
      { calls := [], result := .errResult "User is not authenticated" } ∧
    disableMFA dec now u e3 =
      { calls := [], result := .errResult "User is not authenticated" } ∧
    deleteUser dec now u e4 =
      { calls := [], result := .errResult "User is not authenticated" } ∧
    updateAttributes dec now u attrs e5 =
      { calls := [], result := .errResult "User is not authenticated" } ∧
    getUserAttributes dec now u e6 =
      { calls := [], result := .errResult "User is not authenticated" } ∧
    deleteAttributes dec now u attrNames e7 =
      { calls := [], result := .errResult "User is not authenticated" } ∧
    getAttributeVerificationCode dec now u an e8 =
      { calls := [], result := .errResult "User is not authenticated" } ∧
    verifyAttribute dec now u an cc e9 =
      { calls := [], result := .errResult "User is not authenticated" } ∧
    getDevice dec now u e11 =
      { calls := [], result := .errResult "User is not authenticated" } ∧
    forgetDevice dec now u st e10 =
      { user := u, storage := st, calls := []
        result := .errResult "User is not authenticated" } ∧
    setDeviceStatusRemembered dec now u e12 =
      { calls := [], result := .errResult "User is not authenticated" } ∧
    setDeviceStatusNotRemembered dec now u e13 =
      { calls := [], result := .errResult "User is not authenticated" } ∧
    listDevices dec now u lim pt e15 =
      { calls := [], result := .errResult "User is not authenticated" } ∧
    globalSignOut dec now u st e14 =
      { user := u, storage := st, calls := []
        result := .errResult "User is not authenticated" } := by
  simp [changePassword, enableMFA, disableMFA, deleteUser, updateAttributes,
    getUserAttributes, deleteAttributes, getAttributeVerificationCode,
    verifyAttribute, getDevice, forgetDevice, setDeviceStatusRemembered,
    setDeviceStatusNotRemembered, listDevices, globalSignOut, h]

/-- C9 witness: the guard fails on the session-less user and two of the
operations (one pure, one state-mutating) are evaluated concretely. -/
theorem protected_ops_require_valid_session_witness :
    hasValidSession decW 0 userNoSessionW = false ∧
    changePassword decW 0 userNoSessionW "old" "new" (.ok ()) =
      { calls := [], result := .errResult "User is not authenticated" } ∧
    globalSignOut decW 0 userNoSessionW [] (.ok ()) =
      { user := userNoSessionW, storage := [], calls := []
        result := .errResult "User is not authenticated" } := by
  have h := protected_ops_require_valid_session decW 0 userNoSessionW []
    "old" "new" "attr" "code" "page" [] [] 5
    (.ok ()) (.ok ()) (.ok ()) (.ok ()) (.ok ()) (.ok ()) (.ok ()) (.ok ())
    (.ok ()) (.ok ()) (.ok ()) (.ok []) (.ok "v") (.ok "d") (.ok "l") (by decide)
  exact ⟨by decide, h.1, h.2.2.2.2.2.2.2.2.2.2.2.2.2.2⟩

/-! ## C10 -/

/-- C10: a successful `forgetDevice` nulls the in-memory `deviceKey` and
`randomPassword`, removes the three device cache entries, and nulls the
mistyped property `deviceGroupkey` — leaving the in-memory
`deviceGroupKey` field unchanged, so a later in-process read still sees
the old device group key. -/
theorem forgetDevice_typo_frame (dec : String → Nat) (now : Nat)
    (u : CognitoUserState) (st : Storage)
    (h : hasValidSession dec now u = true) :
    (forgetDevice dec now u st (.ok ())).user.deviceKey = Option.none ∧
    (forgetDevice dec now u st (.ok ())).user.randomPassword = Option.none ∧
    (forgetDevice dec now u st (.ok ())).user.deviceGroupkey = Option.none ∧
    (forgetDevice dec now u st (.ok ())).user.deviceGroupKey = u.deviceGroupKey ∧
    (forgetDevice dec now u st (.ok ())).storage.getItem
      (deviceKeyKey u.poolClientId u.username) = Option.none ∧
    (forgetDevice dec now u st (.ok ())).storage.getItem
      (randomPasswordKey u.poolClientId u.username) = Option.none ∧
    (forgetDevice dec now u st (.ok ())).storage.getItem
      (deviceGroupKeyKey u.poolClientId u.username) = Option.none := by
  simp [forgetDevice, h, clearCachedDeviceKeyAndPassword, getItem_removeItem]

/-- C10 witness: the typo frame effect on the concrete signed-in user with
a remembered device: the capital-K `deviceGroupKey` survives. -/
theorem forgetDevice_typo_frame_witness :
    hasValidSession decW 0 userW = true ∧
    (forgetDevice decW 0 userW [] (.ok ())).user.deviceKey = Option.none ∧
    (forgetDevice decW 0 userW [] (.ok ())).user.deviceGroupkey = Option.none ∧
    (forgetDevice decW 0 userW [] (.ok ())).user.deviceGroupKey = some "dgroup" := by
  have h := forgetDevice_typo_frame decW 0 userW [] (by decide)
  exact ⟨by decide, h.1, h.2.2.1, h.2.2.2.1⟩

/-! ## C7 -/

/-- C7: for a successful `REFRESH_TOKEN_AUTH` call, the reconstructed
session keeps the passed-in refresh token when the provider omits the
`RefreshToken` field and takes the provider-supplied one otherwise
(`ar.RefreshToken.or rtv`); in both cases the new session replaces the
in-memory session and is written to the cache under the (possibly
cache-updated) username. -/
theorem refreshSession_retains_refresh_token (u : CognitoUserState) (st : Storage)
    (rtv : Option String) (ar : AuthenticationResult)
    (renv : Except String RefreshResponse)
    (h : renv = .ok { AuthenticationResult := ar }) :
    ∃ sess : CognitoUserSession,
      (refreshSession u st rtv renv).result = .ok sess ∧
      (refreshSession u st rtv renv).user.signInUserSession = some sess ∧
      sess.idToken = ar.IdToken ∧ sess.accessToken = ar.AccessToken ∧
      sess.refreshToken = ar.RefreshToken.or rtv ∧
      (refreshSession u st rtv renv).storage.getItem
        (idTokenKey u.poolClientId (refreshSession u st rtv renv).user.username) =
        some ar.IdToken ∧
      (refreshSession u st rtv renv).storage.getItem
        (refreshTokenKey u.poolClientId (refreshSession u st rtv renv).user.username) =
        some ((ar.RefreshToken.or rtv).getD "null") := by
  subst h
  simp only [refreshSession]
  by_cases hl : jsTruthy (st.getItem (lastUserKey u.poolClientId)) = true <;>
    rcases hr : ar.RefreshToken with _ | t <;>
      simp only [hl, hr, Bool.false_eq_true, ite_true, ite_false, reduceCtorEq,
        reduceIte] <;>
    · refine ⟨_, rfl, rfl, rfl, rfl, ?_, ?_, ?_⟩
      · simp [hr, Option.or, getCognitoUserSession]
      · simp [cacheTokens, getCognitoUserSession, getItem_setItem,
          idTokenKey_ne_lastUserKey, idTokenKey_ne_refreshTokenKey,
          idTokenKey_ne_accessTokenKey]
      · simp [cacheTokens, getCognitoUserSession, getItem_setItem,
          refreshTokenKey_ne_lastUserKey, hr, Option.or]

/-- C7 witness: a concrete refresh whose response omits the refresh token
retains the original one. -/
theorem refreshSession_retains_refresh_token_witness :
    ∃ sess : CognitoUserSession,
      (refreshSession userW [] (some "origRef")
          (.ok { AuthenticationResult :=
            { IdToken := "idN", AccessToken := "accN", RefreshToken := Option.none
              NewDeviceMetadata := Option.none } })).result = .ok sess ∧
      sess.refreshToken = some "origRef" := by
  obtain ⟨sess, h1, h2, h3, h4, h5, h6, h7⟩ :=
    refreshSession_retains_refresh_token userW [] (some "origRef")
      { IdToken := "idN", AccessToken := "accN", RefreshToken := Option.none
        NewDeviceMetadata := Option.none } _ rfl
  exact ⟨sess, h1, by rw [h5]; rfl⟩

/-! ## C2 -/

/-- The `initiateAuth` response used by the concrete runs. -/
def initW : InitiateAuthData :=
  { ChallengeParameters :=
      { USER_ID_FOR_SRP := "alice", SRP_B := "b1", SALT := "s1", SECRET_BLOCK := "sb1" }
    Session := some "provSess" }

/-- A `PASSWORD_VERIFIER` response with no further challenge but with
new-device metadata. -/
def respC2 : ChallengeResponseData :=
  { ChallengeName := Option.none, Session := Option.none, ChallengeParameters := []
    AuthenticationResult :=
      { IdToken := "idA", AccessToken := "accA", RefreshToken := some "refA"
        NewDeviceMetadata := some { DeviceGroupKey := "dg1", DeviceKey := "dk1" } } }

/-- A provider environment whose `confirmDevice` call fails. -/
def envC2 : ProviderEnv :=
  { initiateAuth := .ok initW
    respondPasswordVerifier := .ok respC2
    respondDeviceSrp := .error "unused"
    respondDevicePasswordVerifier := .error "unused"
    confirmDevice := .error "confirm-device-failed" }

/-- The user before authentication: no session, no remembered device. -/
def userStartW : CognitoUserState :=
  { userW with signInUserSession := Option.none, deviceKey := Option.none
               deviceGroupKey := Option.none, randomPassword := Option.none }

/-- C2 counterexample: on a run where primary authentication succeeds
(session stored and tokens cached) and the subsequent `ConfirmDevice`
call errors, `authenticateUser` reports the run through
`callback.onFailure`, not as a success — contradicting the claim that the
overall authentication is still reported as a success. -/
theorem authenticateUser_confirmDevice_error_cex :
    (authenticateUser userStartW [] authDetailsW envC2 cryptoW).outcome =
      .onFailure "confirm-device-failed" ∧
    (authenticateUser userStartW [] authDetailsW envC2 cryptoW).user.signInUserSession =
      some { idToken := "idA", accessToken := "accA", refreshToken := some "refA" } ∧
    (authenticateUser userStartW [] authDetailsW envC2 cryptoW).storage.getItem
      "CognitoIdentityServiceProvider.c1.alice.idToken" = some "idA" := by
  exact ⟨rfl, rfl, rfl⟩

/-- C2 (amended): when primary authentication succeeds but `ConfirmDevice`
errors, the failure callback is invoked with the `ConfirmDevice` error —
although the session was already stored in memory and the tokens were
already cached (success with the confirmation-necessary flag is reported
only when `ConfirmDevice` itself succeeds). -/
theorem authenticateUser_confirmDevice_error_onFailure (u : CognitoUserState)
    (st : Storage) (ad : AuthenticationDetails) (env : ProviderEnv)
    (crypto : CryptoEnv) (init : InitiateAuthData) (resp : ChallengeResponseData)
    (ndm : NewDeviceMetadata) (e : String)
    (hinit : env.initiateAuth = .ok init)
    (hresp : env.respondPasswordVerifier = .ok resp)
    (hcn : resp.ChallengeName = Option.none)
    (hndm : resp.AuthenticationResult.NewDeviceMetadata = some ndm)
    (hc : env.confirmDevice = .error e) :
    (authenticateUser u st ad env crypto).outcome = .onFailure e ∧
    (authenticateUser u st ad env crypto).user.signInUserSession =
      some (getCognitoUserSession resp.AuthenticationResult) ∧
    (authenticateUser u st ad env crypto).storage.getItem
      (idTokenKey u.poolClientId init.ChallengeParameters.USER_ID_FOR_SRP) =
      some resp.AuthenticationResult.IdToken := by
  obtain ⟨hun, hup, hcl, hsess⟩ := getCachedDeviceKeyAndPassword_fields
    { u with username := init.ChallengeParameters.USER_ID_FOR_SRP } st
  refine ⟨?_, ?_, ?_⟩ <;>
    simp only [authenticateUser, hinit, hresp, handleAuthChallengeResponse, hcn,
      handleAuthChallengeResponse.authenticatedBranch, hndm, confirmDeviceFlow, hc]
  have hkey := getItem_cacheTokens_idToken
    { getCachedDeviceKeyAndPassword { u with username := init.ChallengeParameters.USER_ID_FOR_SRP } st
        with signInUserSession := some (getCognitoUserSession resp.AuthenticationResult) }
    st (getCognitoUserSession resp.AuthenticationResult) rfl
  rw [show (getCachedDeviceKeyAndPassword
      { u with username := init.ChallengeParameters.USER_ID_FOR_SRP } st).poolClientId =
      u.poolClientId from hcl,
    show (getCachedDeviceKeyAndPassword
      { u with username := init.ChallengeParameters.USER_ID_FOR_SRP } st).username =
      init.ChallengeParameters.USER_ID_FOR_SRP from hun] at hkey
  exact hkey

/-- C2 witness: the amended behaviour on the concrete failing run. -/
theorem authenticateUser_confirmDevice_error_onFailure_witness :
    (authenticateUser userStartW [] authDetailsW envC2 cryptoW).outcome =
      .onFailure "confirm-device-failed" ∧
    (authenticateUser userStartW [] authDetailsW envC2 cryptoW).user.signInUserSession =
      some (getCognitoUserSession respC2.AuthenticationResult) := by
  have h := authenticateUser_confirmDevice_error_onFailure userStartW [] authDetailsW
    envC2 cryptoW initW respC2 { DeviceGroupKey := "dg1", DeviceKey := "dk1" }
    "confirm-device-failed" rfl rfl rfl rfl rfl
  exact ⟨h.1, h.2.1⟩

/-! ## C5 -/

/-- The confirm-device sub-flow ends in `onFailure` or `onSuccess`, never
in a challenge callback. -/
theorem confirmDeviceFlow_outcome_not_challenge (u : CognitoUserState) (st : Storage)
    (ndm : NewDeviceMetadata) (crypto : CryptoEnv)
    (cr : Except String ConfirmDeviceData) (tr : List SentRequest) :
    (∀ cn, (confirmDeviceFlow u st ndm crypto cr tr).outcome ≠ .mfaRequired cn) ∧
    (∀ p, (confirmDeviceFlow u st ndm crypto cr tr).outcome ≠ .customChallenge p) := by
  unfold confirmDeviceFlow
  rcases cr with e | d
  · simp
  · by_cases hc : d.UserConfirmationNecessary = true <;> simp [hc]

/-- A successful `SMS_MFA` response that itself carries a further
`challengeName` — which the claim says should be dispatched as a
challenge. -/
def respC5 : ChallengeResponseData :=
  { ChallengeName := some "SMS_MFA", Session := some "sess2", ChallengeParameters := []
    AuthenticationResult :=
      { IdToken := "idA", AccessToken := "accA", RefreshToken := some "refA"
        NewDeviceMetadata := Option.none } }

/-- C5 counterexample: a successful `sendMFACode` response carrying
`challengeName = SMS_MFA` is not re-dispatched as a challenge: the run
ends in `onSuccess` with a session built from `AuthenticationResult`,
never in `mfaRequired`. -/
theorem sendMFACode_challengeName_ignored_cex :
    (sendMFACode userNoSessionW [] "123456" (.ok respC5) (.error "unused")
        cryptoW).outcome =
      .onSuccess (some { idToken := "idA", accessToken := "accA", refreshToken := some "refA" }) Option.none ∧
    (sendMFACode userNoSessionW [] "123456" (.ok respC5) (.error "unused")
        cryptoW).outcome ≠ .mfaRequired "SMS_MFA" := by
  exact ⟨rfl, by decide⟩

/-- C5 (amended): every successful `sendMFACode` response is treated
unconditionally as a final `AuthenticationResult`: the session is built
from it and stored regardless of any `challengeName` in the response, and
the outcome is never a challenge callback (`mfaRequired` or
`customChallenge`). -/
theorem sendMFACode_unconditional_authResult (u : CognitoUserState) (st : Storage)
    (code : String) (resp : ChallengeResponseData)
    (confirmResp : Except String ConfirmDeviceData) (crypto : CryptoEnv) :
    (sendMFACode u st code (.ok resp) confirmResp crypto).user.signInUserSession =
      some (getCognitoUserSession resp.AuthenticationResult) ∧
    (∀ cn, (sendMFACode u st code (.ok resp) confirmResp crypto).outcome ≠
      .mfaRequired cn) ∧
    (∀ p, (sendMFACode u st code (.ok resp) confirmResp crypto).outcome ≠
      .customChallenge p) := by
  unfold sendMFACode
  rcases hndm : resp.AuthenticationResult.NewDeviceMetadata with _ | ndm
  · simp [hndm]
  · simp only [hndm]
    constructor
    · have h := (confirmDeviceFlow_fields
        { u with signInUserSession := some (getCognitoUserSession resp.AuthenticationResult) }
        (cacheTokens
          { u with signInUserSession := some (getCognitoUserSession resp.AuthenticationResult) }
          st)
        ndm crypto confirmResp
        [SentRequest.smsMfaRespond u.poolClientId u.username code u.deviceKey u.Session]).2.2.2.1
      simpa using h
    · exact confirmDeviceFlow_outcome_not_challenge _ _ ndm crypto confirmResp _

/-! ## C1 -/

/-- The final branch of the password-verifier dispatch always wraps
`AuthenticationResult` into the session, caches the three tokens, and —
when no new-device metadata is present — reports success with that
session. -/
theorem authenticatedBranch_spec (u : CognitoUserState) (st : Storage)
    (d : ChallengeResponseData) (env : ProviderEnv) (crypto : CryptoEnv)
    (tr : List SentRequest) :
    (handleAuthChallengeResponse.authenticatedBranch u st d env crypto
        tr).user.signInUserSession =
      some (getCognitoUserSession d.AuthenticationResult) ∧
    (handleAuthChallengeResponse.authenticatedBranch u st d env crypto
        tr).storage.getItem (idTokenKey u.poolClientId u.username) =
      some d.AuthenticationResult.IdToken ∧
    (handleAuthChallengeResponse.authenticatedBranch u st d env crypto
        tr).storage.getItem (accessTokenKey u.poolClientId u.username) =
      some d.AuthenticationResult.AccessToken ∧
    (handleAuthChallengeResponse.authenticatedBranch u st d env crypto
        tr).storage.getItem (refreshTokenKey u.poolClientId u.username) =
      some (d.AuthenticationResult.RefreshToken.getD "null") ∧
    (d.AuthenticationResult.NewDeviceMetadata = Option.none →
      (handleAuthChallengeResponse.authenticatedBranch u st d env crypto tr).outcome =
        .onSuccess (some (getCognitoUserSession d.AuthenticationResult)) Option.none) := by
  unfold handleAuthChallengeResponse.authenticatedBranch
  rcases hndm : d.AuthenticationResult.NewDeviceMetadata with _ | ndm
  · refine ⟨rfl, ?_, ?_, ?_, fun _ => rfl⟩ <;>
      simp [cacheTokens, getCognitoUserSession, getItem_setItem,
        idTokenKey_ne_lastUserKey, idTokenKey_ne_refreshTokenKey,
        idTokenKey_ne_accessTokenKey, accessTokenKey_ne_lastUserKey,
        accessTokenKey_ne_refreshTokenKey, refreshTokenKey_ne_lastUserKey]
  · unfold confirmDeviceFlow
    rcases hc : env.confirmDevice with e | dc
    · refine ⟨rfl, ?_, ?_, ?_, fun habs => by simp [hndm] at habs⟩ <;>
        simp [cacheTokens, getCognitoUserSession, getItem_setItem,
          idTokenKey_ne_lastUserKey, idTokenKey_ne_refreshTokenKey,
          idTokenKey_ne_accessTokenKey, accessTokenKey_ne_lastUserKey,
          accessTokenKey_ne_refreshTokenKey, refreshTokenKey_ne_lastUserKey]
    · by_cases hb : dc.UserConfirmationNecessary = true <;>
        · refine ⟨?_, ?_, ?_, ?_, fun habs => by simp [hndm] at habs⟩ <;>
            simp [hb, cacheDeviceKeyAndPassword, cacheTokens, getCognitoUserSession,
              getItem_setItem, idTokenKey_ne_lastUserKey, idTokenKey_ne_refreshTokenKey,
              idTokenKey_ne_accessTokenKey, accessTokenKey_ne_lastUserKey,
              accessTokenKey_ne_refreshTokenKey, refreshTokenKey_ne_lastUserKey,
              idTokenKey_ne_deviceKeyKey, idTokenKey_ne_randomPasswordKey,
              idTokenKey_ne_deviceGroupKeyKey, accessTokenKey_ne_deviceKeyKey,
              accessTokenKey_ne_randomPasswordKey, accessTokenKey_ne_deviceGroupKeyKey,
              refreshTokenKey_ne_deviceKeyKey, refreshTokenKey_ne_randomPasswordKey,
              refreshTokenKey_ne_deviceGroupKeyKey]

/-- C1: the `PASSWORD_VERIFIER` response dispatch in `authenticateUser`:
`SMS_MFA` stores the provider session token and reports `mfaRequired`;
`CUSTOM_CHALLENGE` stores the session token and reports `customChallenge`;
`DEVICE_SRP_AUTH` enters the device sub-flow on the canonically-renamed
state; an absent challenge name wraps `AuthenticationResult` into the
session, persists the three tokens to the cache, and (with no new-device
metadata) reports success with that session. -/
theorem authenticateUser_passwordVerifier_dispatch (u : CognitoUserState)
    (st : Storage) (ad : AuthenticationDetails) (env : ProviderEnv)
    (crypto : CryptoEnv) (init : InitiateAuthData) (resp : ChallengeResponseData)
    (hinit : env.initiateAuth = .ok init)
    (hresp : env.respondPasswordVerifier = .ok resp) :
    (resp.ChallengeName = some "SMS_MFA" →
      (authenticateUser u st ad env crypto).outcome = .mfaRequired "SMS_MFA" ∧
      (authenticateUser u st ad env crypto).user.Session = resp.Session) ∧
    (resp.ChallengeName = some "CUSTOM_CHALLENGE" →
      (authenticateUser u st ad env crypto).outcome =
        .customChallenge resp.ChallengeParameters ∧
      (authenticateUser u st ad env crypto).user.Session = resp.Session) ∧
    (resp.ChallengeName = some "DEVICE_SRP_AUTH" →
      authenticateUser u st ad env crypto =
        getDeviceResponse
          (getCachedDeviceKeyAndPassword
            { u with username := init.ChallengeParameters.USER_ID_FOR_SRP } st)
          st env crypto
          [initiateAuthRequest u ad crypto,
            SentRequest.respondToAuthChallenge
              (passwordVerifierRequest
                (getCachedDeviceKeyAndPassword
                  { u with username := init.ChallengeParameters.USER_ID_FOR_SRP } st)
                (splitUnderscoreIdx1 u.poolUserPoolId) ad init.ChallengeParameters
                init.Session crypto)]) ∧
    (resp.ChallengeName = Option.none →
      (authenticateUser u st ad env crypto).user.signInUserSession =
        some (getCognitoUserSession resp.AuthenticationResult) ∧
      (authenticateUser u st ad env crypto).storage.getItem
        (idTokenKey u.poolClientId init.ChallengeParameters.USER_ID_FOR_SRP) =
        some resp.AuthenticationResult.IdToken ∧
      (authenticateUser u st ad env crypto).storage.getItem
        (accessTokenKey u.poolClientId init.ChallengeParameters.USER_ID_FOR_SRP) =
        some resp.AuthenticationResult.AccessToken ∧
      (authenticateUser u st ad env crypto).storage.getItem
        (refreshTokenKey u.poolClientId init.ChallengeParameters.USER_ID_FOR_SRP) =
        some (resp.AuthenticationResult.RefreshToken.getD "null") ∧
      (resp.AuthenticationResult.NewDeviceMetadata = Option.none →
        (authenticateUser u st ad env crypto).outcome =
          .onSuccess (some (getCognitoUserSession resp.AuthenticationResult))
            Option.none)) := by
  obtain ⟨hun, hup, hcl, hsess⟩ := getCachedDeviceKeyAndPassword_fields
    { u with username := init.ChallengeParameters.USER_ID_FOR_SRP } st
  refine ⟨?_, ?_, ?_, ?_⟩
  · intro hcn
    constructor <;>
      simp [authenticateUser, hinit, hresp, handleAuthChallengeResponse, hcn]
  · intro hcn
    constructor <;>
      simp [authenticateUser, hinit, hresp, handleAuthChallengeResponse, hcn]
  · intro hcn
    simp [authenticateUser, hinit, hresp, handleAuthChallengeResponse, hcn]
  · intro hcn
    have hspec := authenticatedBranch_spec
      (getCachedDeviceKeyAndPassword
        { u with username := init.ChallengeParameters.USER_ID_FOR_SRP } st)
      st resp env crypto
      [initiateAuthRequest u ad crypto,
        SentRequest.respondToAuthChallenge
          (passwordVerifierRequest
            (getCachedDeviceKeyAndPassword
              { u with username := init.ChallengeParameters.USER_ID_FOR_SRP } st)
            (splitUnderscoreIdx1 u.poolUserPoolId) ad init.ChallengeParameters
            init.Session crypto)]
    rw [hcl, hun] at hspec
    have hrun : authenticateUser u st ad env crypto =
        handleAuthChallengeResponse.authenticatedBranch
          (getCachedDeviceKeyAndPassword
            { u with username := init.ChallengeParameters.USER_ID_FOR_SRP } st)
          st resp env crypto
          [initiateAuthRequest u ad crypto,
            SentRequest.respondToAuthChallenge
              (passwordVerifierRequest
                (getCachedDeviceKeyAndPassword
                  { u with username := init.ChallengeParameters.USER_ID_FOR_SRP } st)
                (splitUnderscoreIdx1 u.poolUserPoolId) ad init.ChallengeParameters
                init.Session crypto)] := by
      simp [authenticateUser, hinit, hresp, handleAuthChallengeResponse, hcn]
    rw [hrun]
    exact hspec

/-- A `PASSWORD_VERIFIER` response with no challenge name and no
new-device metadata. -/
def respC1 : ChallengeResponseData :=
  { ChallengeName := Option.none, Session := Option.none, ChallengeParameters := []
    AuthenticationResult :=
      { IdToken := "idA", AccessToken := "accA", RefreshToken := some "refA"
        NewDeviceMetadata := Option.none } }

/-- C1 witness: the absent-challenge branch on a concrete run with no
new-device metadata: session wrapped, tokens cached, success reported. -/
theorem authenticateUser_passwordVerifier_dispatch_witness :
    (authenticateUser userStartW [] authDetailsW
        { envC2 with respondPasswordVerifier := .ok respC1 }
        cryptoW).user.signInUserSession =
      some (getCognitoUserSession respC1.AuthenticationResult) ∧
    (authenticateUser userStartW [] authDetailsW
        { envC2 with respondPasswordVerifier := .ok respC1 }
        cryptoW).storage.getItem
      (idTokenKey "c1" "alice") = some "idA" ∧
    (authenticateUser userStartW [] authDetailsW
        { envC2 with respondPasswordVerifier := .ok respC1 }
        cryptoW).outcome =
      .onSuccess (some (getCognitoUserSession respC1.AuthenticationResult))
        Option.none := by
  have h := (authenticateUser_passwordVerifier_dispatch userStartW [] authDetailsW
    { envC2 with respondPasswordVerifier := .ok respC1 } cryptoW initW respC1
    rfl rfl).2.2.2 rfl
  exact ⟨h.1, h.2.1, h.2.2.2.2 rfl⟩

/-! ## C6 -/

/-- C6: the device sub-flow derives the shared key with the stored
`randomPassword` as the password and the stored `deviceKey` as the
username (on a helper keyed by the stored `deviceGroupKey`), answers with
challenge name `DEVICE_PASSWORD_VERIFIER`, and on success builds the
session, caches the tokens, and reports success directly — the two
appended requests are the whole sub-flow, so no `confirmDevice`
(new-device confirmation) round is ever entered. -/
theorem getDeviceResponse_device_credentials (u : CognitoUserState) (st : Storage)
    (env : ProviderEnv) (crypto : CryptoEnv) (prior : List SentRequest)
    (ddata : DeviceSrpData) (dresp : ChallengeResponseData)
    (dk rp dgk : String)
    (h1 : env.respondDeviceSrp = .ok ddata)
    (h2 : env.respondDevicePasswordVerifier = .ok dresp)
    (hdk : u.deviceKey = some dk) (hrp : u.randomPassword = some rp)
    (hdgk : u.deviceGroupKey = some dgk) :
    (getDeviceResponse u st env crypto prior).trace =
      prior ++
        [SentRequest.deviceSrpAuth u.poolClientId u.username dk crypto.deviceLargeA,
          SentRequest.respondToAuthChallenge
            (devicePasswordVerifierRequest u ddata.ChallengeParameters ddata.Session
              crypto)] ∧
    (devicePasswordVerifierRequest u ddata.ChallengeParameters ddata.Session
        crypto).ChallengeName = "DEVICE_PASSWORD_VERIFIER" ∧
    (devicePasswordVerifierRequest u ddata.ChallengeParameters ddata.Session
        crypto).PASSWORD_CLAIM_SIGNATURE.key =
      getPasswordAuthenticationKey dgk dk rp ddata.ChallengeParameters.SRP_B
        ddata.ChallengeParameters.SALT ∧
    (getDeviceResponse u st env crypto prior).outcome =
      .onSuccess (some (getCognitoUserSession dresp.AuthenticationResult))
        Option.none ∧
    (getDeviceResponse u st env crypto prior).user.signInUserSession =
      some (getCognitoUserSession dresp.AuthenticationResult) ∧
    (getDeviceResponse u st env crypto prior).storage.getItem
      (idTokenKey u.poolClientId u.username) =
      some dresp.AuthenticationResult.IdToken := by
  refine ⟨?_, rfl, ?_, ?_, ?_, ?_⟩
  · simp [getDeviceResponse, h1, h2, hdk]
  · simp [devicePasswordVerifierRequest, hdk, hrp, hdgk]
  · simp [getDeviceResponse, h1, h2]
  · simp [getDeviceResponse, h1, h2]
  · simp [getDeviceResponse, h1, h2, cacheTokens, getCognitoUserSession,
      getItem_setItem, idTokenKey_ne_lastUserKey, idTokenKey_ne_refreshTokenKey,
      idTokenKey_ne_accessTokenKey]

/-- The `DEVICE_SRP_AUTH` challenge parameters of a concrete device run. -/
def ddataW : DeviceSrpData :=
  { ChallengeParameters := { SRP_B := "db", SALT := "ds", SECRET_BLOCK := "dsb" }
    Session := some "dsess" }

/-- The final `DEVICE_PASSWORD_VERIFIER` response of a concrete device run. -/
def drespW : ChallengeResponseData :=
  { ChallengeName := Option.none, Session := Option.none, ChallengeParameters := []
    AuthenticationResult :=
      { IdToken := "idD", AccessToken := "accD", RefreshToken := some "refD"
        NewDeviceMetadata := Option.none } }

/-- A provider environment for a concrete device sub-flow run. -/
def envC6 : ProviderEnv :=
  { initiateAuth := .error "unused"
    respondPasswordVerifier := .error "unused"
    respondDeviceSrp := .ok ddataW
    respondDevicePasswordVerifier := .ok drespW
    confirmDevice := .error "unused" }

/-- C6 witness: the concrete device run uses the stored device key as the
key-derivation username and the stored random password as its password,
and ends in direct success. -/
theorem getDeviceResponse_device_credentials_witness :
    (devicePasswordVerifierRequest userW ddataW.ChallengeParameters ddataW.Session
        cryptoW).PASSWORD_CLAIM_SIGNATURE.key.username = "dkey" ∧
    (devicePasswordVerifierRequest userW ddataW.ChallengeParameters ddataW.Session
        cryptoW).PASSWORD_CLAIM_SIGNATURE.key.password = "rpass" ∧
    (devicePasswordVerifierRequest userW ddataW.ChallengeParameters ddataW.Session
        cryptoW).PASSWORD_CLAIM_SIGNATURE.key.poolIdentifier = "dgroup" ∧
    (getDeviceResponse userW [] envC6 cryptoW []).outcome =
      .onSuccess (some (getCognitoUserSession drespW.AuthenticationResult))
        Option.none := by
  have h := getDeviceResponse_device_credentials userW [] envC6 cryptoW []
    ddataW drespW "dkey" "rpass" "dgroup" rfl rfl rfl rfl rfl
  refine ⟨?_, ?_, ?_, h.2.2.2.1⟩ <;> rw [h.2.2.1] <;> rfl

/-! ## C8 -/

/-- C8: after a successful `initiateAuth`, the username is replaced by the
canonical `USER_ID_FOR_SRP` before any further use: the final state
carries it; the `PASSWORD_VERIFIER` request (second trace entry) sends it
and signs it into the HMAC material (key derivation username and message
part 1); every challenge response of the exchange that carries a USERNAME
carries the canonical one; tokens, when cached, are cached under it; and
the pool id and client id are never modified. -/
theorem authenticateUser_canonical_username (u : CognitoUserState) (st : Storage)
    (ad : AuthenticationDetails) (env : ProviderEnv) (crypto : CryptoEnv)
    (init : InitiateAuthData)
    (hinit : env.initiateAuth = .ok init) :
    (authenticateUser u st ad env crypto).user.username =
      init.ChallengeParameters.USER_ID_FOR_SRP ∧
    (authenticateUser u st ad env crypto).user.poolUserPoolId = u.poolUserPoolId ∧
    (authenticateUser u st ad env crypto).user.poolClientId = u.poolClientId ∧
    (∃ req : RespondRequest,
      (authenticateUser u st ad env crypto).trace[1]? =
        some (SentRequest.respondToAuthChallenge req) ∧
      req.USERNAME = init.ChallengeParameters.USER_ID_FOR_SRP ∧
      req.PASSWORD_CLAIM_SIGNATURE.key.username =
        init.ChallengeParameters.USER_ID_FOR_SRP ∧
      req.PASSWORD_CLAIM_SIGNATURE.parts[1]? =
        some init.ChallengeParameters.USER_ID_FOR_SRP) ∧
    (∀ q ∈ (authenticateUser u st ad env crypto).trace, ∀ x,
      q.challengeUsername = some x → x = init.ChallengeParameters.USER_ID_FOR_SRP) ∧
    (∀ resp, env.respondPasswordVerifier = .ok resp →
      resp.ChallengeName = Option.none →
      (authenticateUser u st ad env crypto).storage.getItem
        (idTokenKey u.poolClientId init.ChallengeParameters.USER_ID_FOR_SRP) =
        some resp.AuthenticationResult.IdToken) := by
  obtain ⟨hun, hup, hcl, hsess⟩ := getCachedDeviceKeyAndPassword_fields
    { u with username := init.ChallengeParameters.USER_ID_FOR_SRP } st
  rcases hresp : env.respondPasswordVerifier with e | resp
  · have hrun : authenticateUser u st ad env crypto =
        { user := getCachedDeviceKeyAndPassword
            { u with username := init.ChallengeParameters.USER_ID_FOR_SRP } st
          storage := st, outcome := .onFailure e
          trace := [initiateAuthRequest u ad crypto,
            SentRequest.respondToAuthChallenge
              (passwordVerifierRequest
                (getCachedDeviceKeyAndPassword
                  { u with username := init.ChallengeParameters.USER_ID_FOR_SRP } st)
                (splitUnderscoreIdx1 u.poolUserPoolId) ad init.ChallengeParameters
                init.Session crypto)] } := by
      simp [authenticateUser, hinit, hresp]
    rw [hrun]
    refine ⟨hun, hup, hcl,
      ⟨_, rfl, hun, hun, by simp only [passwordVerifierRequest]; simpa using hun⟩,
      ?_, ?_⟩
    · intro q hq x hx
      rcases List.mem_cons.mp hq with rfl | hq2
      · simp [initiateAuthRequest, SentRequest.challengeUsername] at hx
      · rcases List.mem_cons.mp hq2 with rfl | hq3
        · simp [SentRequest.challengeUsername, passwordVerifierRequest] at hx
          rw [← hx]; exact hun
        · cases hq3
    · intro r hre
      cases hre
  · have hrun : authenticateUser u st ad env crypto =
        handleAuthChallengeResponse
          (getCachedDeviceKeyAndPassword
            { u with username := init.ChallengeParameters.USER_ID_FOR_SRP } st)
          st resp env crypto
          [initiateAuthRequest u ad crypto,
            SentRequest.respondToAuthChallenge
              (passwordVerifierRequest
                (getCachedDeviceKeyAndPassword
                  { u with username := init.ChallengeParameters.USER_ID_FOR_SRP } st)
                (splitUnderscoreIdx1 u.poolUserPoolId) ad init.ChallengeParameters
                init.Session crypto)] := by
      simp [authenticateUser, hinit, hresp]
    obtain ⟨hn, hp, hc, extra, htr, hextra⟩ := handleAuthChallengeResponse_fields
      (getCachedDeviceKeyAndPassword
        { u with username := init.ChallengeParameters.USER_ID_FOR_SRP } st)
      st resp env crypto
      [initiateAuthRequest u ad crypto,
        SentRequest.respondToAuthChallenge
          (passwordVerifierRequest
            (getCachedDeviceKeyAndPassword
              { u with username := init.ChallengeParameters.USER_ID_FOR_SRP } st)
            (splitUnderscoreIdx1 u.poolUserPoolId) ad init.ChallengeParameters
            init.Session crypto)]
    rw [hrun]
    refine ⟨hn.trans hun, hp.trans hup, hc.trans hcl, ?_, ?_, ?_⟩
    · refine ⟨passwordVerifierRequest
        (getCachedDeviceKeyAndPassword
          { u with username := init.ChallengeParameters.USER_ID_FOR_SRP } st)
        (splitUnderscoreIdx1 u.poolUserPoolId) ad init.ChallengeParameters
        init.Session crypto,
        ?_, hun, hun, by simp only [passwordVerifierRequest]; simpa using hun⟩
      rw [htr, List.getElem?_append]
      simp
    · intro q hq x hx
      rw [htr] at hq
      rcases List.mem_append.mp hq with hq | hq
      · rcases List.mem_cons.mp hq with rfl | hq2
        · simp [initiateAuthRequest, SentRequest.challengeUsername] at hx
        · rcases List.mem_cons.mp hq2 with rfl | hq3
          · simp [SentRequest.challengeUsername, passwordVerifierRequest] at hx
            rw [← hx]; exact hun
          · cases hq3
      · have := hextra q hq x hx
        exact this.trans hun
    · intro r hre hcn
      injection hre with hre
      subst hre
      have hspec := authenticatedBranch_spec
        (getCachedDeviceKeyAndPassword
          { u with username := init.ChallengeParameters.USER_ID_FOR_SRP } st)
        st resp env crypto
        [initiateAuthRequest u ad crypto,
          SentRequest.respondToAuthChallenge
            (passwordVerifierRequest
              (getCachedDeviceKeyAndPassword
                { u with username := init.ChallengeParameters.USER_ID_FOR_SRP } st)
              (splitUnderscoreIdx1 u.poolUserPoolId) ad init.ChallengeParameters
              init.Session crypto)]
      rw [hcl, hun] at hspec
      have hbr : handleAuthChallengeResponse
          (getCachedDeviceKeyAndPassword
            { u with username := init.ChallengeParameters.USER_ID_FOR_SRP } st)
          st resp env crypto
          [initiateAuthRequest u ad crypto,
            SentRequest.respondToAuthChallenge
              (passwordVerifierRequest
                (getCachedDeviceKeyAndPassword
                  { u with username := init.ChallengeParameters.USER_ID_FOR_SRP } st)
                (splitUnderscoreIdx1 u.poolUserPoolId) ad init.ChallengeParameters
                init.Session crypto)] =
          handleAuthChallengeResponse.authenticatedBranch
            (getCachedDeviceKeyAndPassword
              { u with username := init.ChallengeParameters.USER_ID_FOR_SRP } st)
            st resp env crypto
            [initiateAuthRequest u ad crypto,
              SentRequest.respondToAuthChallenge
                (passwordVerifierRequest
                  (getCachedDeviceKeyAndPassword
                    { u with username := init.ChallengeParameters.USER_ID_FOR_SRP } st)
                  (splitUnderscoreIdx1 u.poolUserPoolId) ad init.ChallengeParameters
                  init.Session crypto)] := by
        simp [handleAuthChallengeResponse, hcn]
      rw [hbr]
      exact hspec.2.1

/-- C8 witness: the dispatch on a concrete run whose input alias differs
from the canonical username returned by the provider. -/
theorem authenticateUser_canonical_username_witness :
    (authenticateUser { userStartW with username := "alice-alias" } [] authDetailsW
        { envC2 with respondPasswordVerifier := .ok respC1 } cryptoW).user.username =
      "alice" ∧
    (∀ q ∈ (authenticateUser { userStartW with username := "alice-alias" } []
        authDetailsW { envC2 with respondPasswordVerifier := .ok respC1 }
        cryptoW).trace, ∀ x,
      q.challengeUsername = some x → x = "alice") := by
  have h := authenticateUser_canonical_username
    { userStartW with username := "alice-alias" } [] authDetailsW
    { envC2 with respondPasswordVerifier := .ok respC1 } cryptoW initW rfl
  exact ⟨h.1, h.2.2.2.2.1⟩

end Cognito
